import Mathlib

/-!
Verification of the record-linkage and metrics-aggregation pipeline in
src/utils/dataProcessor.ts.  The pipeline body (processData and everything it
computes) is embedded below from the source; the small text/date primitives it
imports from a csvParser module are not part of the sources and are modelled
from the spec where noted.  Counts are carried as integers (JS numbers on
integral values) and rates as exact rationals.
-/

/-- Characters of a string, lowercased (model of JS toLowerCase over the ASCII
alphabet used by the pipeline). -/
def lowerChars (s : String) : List Char := s.toList.map Char.toLower

/-- Lowercased copy of a string. -/
def toLowerStr (s : String) : String := String.mk (lowerChars s)

/-- Does the first character sequence start the second? -/
def seqStarts : List Char → List Char → Bool
  | [], _ => true
  | _ :: _, [] => false
  | p :: ps, c :: cs => p == c && seqStarts ps cs

/-- Does the first character sequence occur contiguously inside the second?
Model of JS String.prototype.includes. -/
def seqInside (pat : List Char) : List Char → Bool
  | [] => pat.isEmpty
  | c :: cs => seqStarts pat (c :: cs) || seqInside pat cs

/-- Substring test on strings (JS includes). -/
def strIncludes (s pat : String) : Bool := seqInside pat.toList s.toList

/-- Split a character list on a separator character. -/
def splitOnChar (sep : Char) : List Char → List (List Char)
  | [] => [[]]
  | c :: cs =>
    let r := splitOnChar sep cs
    if c == sep then [] :: r
    else
      match r with
      | [] => [[c]]
      | h :: t => (c :: h) :: t

/-- Numeric value of a nonempty all-digit character list. -/
def digitsVal (l : List Char) : Option Nat :=
  if l.isEmpty then none
  else
    l.foldl
      (fun acc c =>
        match acc with
        | none => none
        | some n => if c.isDigit then some (n * 10 + (c.toNat - 48)) else none)
      (some 0)

/-- Modelled from the spec: the missing csvParser module's `formatDate` turns raw
dates into one canonical comparable form; canonical dates are "YYYY-MM-DD"
strings here, and this parser recovers the (year, month, day) triple, `none`
standing for an unparseable date (JS `new Date(x)` being Invalid Date). -/
def parseYMD (s : String) : Option (Nat × Nat × Nat) :=
  match splitOnChar '-' s.toList with
  | [y, m, d] =>
    match digitsVal y, digitsVal m, digitsVal d with
    | some yy, some mm, some dd => some (yy, mm, dd)
    | _, _, _ => none
  | _ => none

/-- Comparable timestamp of a canonical date (model of Date.getTime, with
`none` for NaN). -/
def dateKey (s : String) : Option Nat :=
  (parseYMD s).map fun t => t.1 * 10000 + t.2.1 * 100 + t.2.2

/-- English month names, used by the period key. -/
def monthName : Nat → String
  | 1 => "January"
  | 2 => "February"
  | 3 => "March"
  | 4 => "April"
  | 5 => "May"
  | 6 => "June"
  | 7 => "July"
  | 8 => "August"
  | 9 => "September"
  | 10 => "October"
  | 11 => "November"
  | 12 => "December"
  | _ => ""

/-- Modelled from the spec: the missing csvParser module's
`getMonthYearFromDate` (periodKeyOf) yields the month-granularity "Month Year"
bucket of a date. -/
def getMonthYearFromDate (s : String) : String :=
  match parseYMD s with
  | some (y, m, _) => monthName m ++ " " ++ toString y
  | none => ""

/-- Modelled from the spec: the missing csvParser module's `isDateAfter`
(isStrictlyAfter) decides whether the first date is strictly after the second;
an unparseable date on either side compares false (NaN comparisons). -/
def isDateAfter (a b : String) : Bool :=
  match dateKey a, dateKey b with
  | some x, some y => decide (y < x)
  | _, _ => false

/-- Inline helper of the Conversion Evaluator (dataProcessor.ts lines 465-470):
true when the first date is on or after the second, false when either string is
empty or unparseable. -/
def isDateOnOrAfter (dateA dateB : String) : Bool :=
  if dateA == "" || dateB == "" then false
  else
    match dateKey dateA, dateKey dateB with
    | some a, some b => decide (b ≤ a)
    | _, _ => false

/-- Modelled from the spec: the missing csvParser module's `matchesPattern`
(matchesAnyKeyword) is a case-insensitive substring match of any alternative of
a pipe-delimited list against the text. -/
def matchesPattern (text pattern : String) : Bool :=
  (splitOnChar '|' pattern.toList).any fun alt =>
    seqInside (alt.map Char.toLower) (lowerChars text)

/-- Intake record after normalization and identity linkage (NewRecord in
dataProcessor.ts; the Teacher field is filled by the linker). -/
structure NewRecord where
  firstName : String
  lastName : String
  email : String
  membershipUsed : String
  firstVisitAt : String
  firstVisit : String
  firstVisitLocation : String
  teacher : String
deriving DecidableEq

/-- Attendance/booking record after normalization (BookingRecord in
dataProcessor.ts; the fields the pipeline reads). -/
structure BookingRecord where
  className : String
  classDate : String
  location : String
  teacher : String
  customerEmail : String
  cancelled : String
  lateCancelled : String
  noShow : String
deriving DecidableEq

/-- Sales record after normalization (SaleRecord in dataProcessor.ts; the sale
value is already coerced to a number). -/
structure SaleRecord where
  category : String
  item : String
  date : String
  saleValue : Int
  refunded : String
  payingCustomerEmail : String
  customerEmail : String
deriving DecidableEq

/-- Per-client conversion status held in clientConversionMap
(dataProcessor.ts lines 431-445). -/
structure ConvStatus where
  isConverted : Bool
  reason : String
  firstPurchaseDate : Option String := none
  firstPurchaseItem : Option String := none
  purchaseValue : Option Int := none
deriving DecidableEq

/-- Metrics record per (teacher, location, period), and also the shape of a
studio rollup (ProcessedTeacherData in dataProcessor.ts; detail lists and chart
series are not needed by the verified claims and are omitted). -/
structure ProcessedTeacherData where
  teacherName : String
  location : String
  period : String
  newClients : Int
  trials : Int
  referrals : Int
  hosted : Int
  influencerSignups : Int
  others : Int
  retainedClients : Int
  retentionRate : Rat
  convertedClients : Int
  conversionRate : Rat
  totalRevenue : Int
  averageRevenuePerClient : Rat
  noShowRate : Rat
  lateCancellationRate : Rat
  firstTimeBuyerRate : Rat
  influencerConversionRate : Rat
  referralConversionRate : Rat
  trialToMembershipConversion : Rat
  totalVisits : Int
  cancellations : Int
  lateCancellations : Int
  noShows : Int
  totalClasses : Int
  uniqueClients : Int
deriving DecidableEq

/-- First-occurrence deduplication with an accumulator of seen elements
(model of JS `[...new Set(l)]`, whose iteration order is insertion order). -/
def dedupAux (seen : List String) : List String → List String
  | [] => []
  | x :: xs => if seen.contains x then dedupAux seen xs else x :: dedupAux (x :: seen) xs

/-- First-occurrence deduplication (JS `[...new Set(l)]`). -/
def dedup (l : List String) : List String := dedupAux [] l

/-- Identity Linker (dataProcessor.ts lines 188-208): enrich an intake record
with the teacher of the first booking matching on email, class label, class
date and location; sentinel "Unknown" when none matches. -/
def enrichRecord (bookings : List BookingRecord) (r : NewRecord) : NewRecord :=
  match bookings.find? (fun b =>
      b.customerEmail == r.email && b.className == r.firstVisit &&
      b.classDate == r.firstVisitAt && b.location == r.firstVisitLocation) with
  | some b => { r with teacher := b.teacher }
  | none => { r with teacher := "Unknown" }

/-- Distinct first-visit locations of the enriched intake records
(dataProcessor.ts line 217). -/
def derivedLocations (enriched : List NewRecord) : List String :=
  dedup (enriched.map (·.firstVisitLocation))

/-- Distinct teachers of the bookings, dropping empty names and the "Unknown"
sentinel (dataProcessor.ts lines 220-222). -/
def derivedTeachers (bookings : List BookingRecord) : List String :=
  dedup ((bookings.map (·.teacher)).filter fun t => t != "" && t != "Unknown")

/-- Distinct month-year periods of the enriched intake records
(dataProcessor.ts lines 225-228). -/
def derivedPeriods (enriched : List NewRecord) : List String :=
  dedup (enriched.map fun r => getMonthYearFromDate r.firstVisitAt)

/-- Cohort selection (dataProcessor.ts lines 273-279): enriched records of the
given teacher, location and period that match neither exclusion pattern. -/
def teacherNewClients (enriched : List NewRecord) (teacher location period : String) :
    List NewRecord :=
  enriched.filter fun r =>
    r.teacher == teacher &&
    r.firstVisitLocation == location &&
    getMonthYearFromDate r.firstVisitAt == period &&
    !matchesPattern r.membershipUsed "friends|family|staff" &&
    !matchesPattern r.firstVisit "friends|family|staff"

/-- Bookings of the given teacher, location and period
(dataProcessor.ts lines 294-298). -/
def teacherBookings (bookings : List BookingRecord) (teacher location period : String) :
    List BookingRecord :=
  bookings.filter fun b =>
    b.teacher == teacher && b.location == location &&
    getMonthYearFromDate b.classDate == period

/-- Trial count (dataProcessor.ts lines 321-323). -/
def trialsCount (cohort : List NewRecord) : Int :=
  ((cohort.filter fun r =>
      matchesPattern r.membershipUsed "Studio Open Barre Class|Newcomers 2 For 1").length : Int)

/-- Referral count (dataProcessor.ts lines 325-327): exact membership label. -/
def referralsCount (cohort : List NewRecord) : Int :=
  ((cohort.filter fun r => r.membershipUsed == "Studio Complimentary Referral Class").length : Int)

/-- Hosted count (dataProcessor.ts lines 329-331). -/
def hostedCount (cohort : List NewRecord) : Int :=
  ((cohort.filter fun r =>
      matchesPattern r.firstVisit
        "hosted|x|p57|physique|weword|rugby|outdoor|birthday|bridal|shower").length : Int)

/-- Influencer sign-up count (dataProcessor.ts lines 333-335). -/
def influencerSignupsCount (cohort : List NewRecord) : Int :=
  ((cohort.filter fun r =>
      matchesPattern r.membershipUsed
        "sign-up|link|influencer|twain|ooo|lrs|x|p57|physique|complimentary").length : Int)

/-- Return visits (dataProcessor.ts lines 346-363): bookings from the whole
dataset whose customer email matches a cohort member (first match), whose class
date is strictly after that member's first visit, and whose three flags are all
"NO". -/
def returnVisits (bookings : List BookingRecord) (cohort : List NewRecord) :
    List BookingRecord :=
  bookings.filter fun booking =>
    match cohort.find? (fun client => client.email == booking.customerEmail) with
    | none => false
    | some matchingClient =>
      isDateAfter booking.classDate matchingClient.firstVisitAt &&
      booking.cancelled == "NO" && booking.lateCancelled == "NO" && booking.noShow == "NO"

/-- Return visits of one client (dataProcessor.ts line 373). -/
def clientReturnVisits (rv : List BookingRecord) (email : String) : List BookingRecord :=
  rv.filter fun visit => visit.customerEmail == email

/-- Retention rule per member (dataProcessor.ts lines 377-395): a "2 For 1"
first-visit label demands at least two return visits, any other label at least
one. -/
def clientRetained (rv : List BookingRecord) (client : NewRecord) : Bool :=
  let n := (clientReturnVisits rv client.email).length
  if strIncludes (toLowerStr client.firstVisit) "2 for 1" then decide (2 ≤ n)
  else decide (1 ≤ n)

/-- Accumulation of retained client emails (dataProcessor.ts lines 368-412,
the forEach push). -/
def retainedFold (rv : List BookingRecord) : List NewRecord → List String
  | [] => []
  | c :: cs => if clientRetained rv c then c.email :: retainedFold rv cs else retainedFold rv cs

/-- Emails of the retained cohort members, in cohort order. -/
def retainedClientEmails (cohort : List NewRecord) (bookings : List BookingRecord) :
    List String :=
  retainedFold (returnVisits bookings cohort) cohort

/-- Cohort member matching a sale (dataProcessor.ts lines 450-457): first member
whose email equals the sale's customer email or its paying-customer email. -/
def matchClient (cohort : List NewRecord) (sale : SaleRecord) : Option NewRecord :=
  cohort.find? fun client =>
    client.email == sale.customerEmail || client.email == sale.payingCustomerEmail

/-- Conversion qualification (dataProcessor.ts lines 472-529): sale date on or
after the first visit, category containing none of money-credits, retail,
product, item not containing "2 for 1", value at least 1000, not refunded. -/
def saleQualifies (client : NewRecord) (sale : SaleRecord) : Bool :=
  let saleDateAfterVisit := isDateOnOrAfter sale.date client.firstVisitAt
  let notExcludedCategory :=
    !(strIncludes (toLowerStr sale.category) "money-credits") &&
    !(strIncludes (toLowerStr sale.category) "retail") &&
    !(strIncludes (toLowerStr sale.category) "product")
  let not2For1Item := !(strIncludes (toLowerStr sale.item) "2 for 1")
  let hasMinimumSaleValue := decide ((1000 : Int) ≤ sale.saleValue)
  let notRefunded := sale.refunded != "YES"
  saleDateAfterVisit && notExcludedCategory && not2For1Item && hasMinimumSaleValue && notRefunded

/-- Diagnostic reason attached to a client for a sale (dataProcessor.ts lines
499-512), reporting the first failed condition, or success. -/
def conversionReason (client : NewRecord) (sale : SaleRecord) : String :=
  if !(isDateOnOrAfter sale.date client.firstVisitAt) then
    "Purchase date (" ++ sale.date ++ ") is before first visit date (" ++
      client.firstVisitAt ++ ")"
  else if strIncludes (toLowerStr sale.category) "money-credits" ||
      strIncludes (toLowerStr sale.category) "retail" ||
      strIncludes (toLowerStr sale.category) "product" then
    "Excluded category: \"" ++ sale.category ++ "\" (contains money-credits/retail/product)"
  else if strIncludes (toLowerStr sale.item) "2 for 1" then
    "Excluded item: \"" ++ sale.item ++ "\" (contains \"2 for 1\")"
  else if !(decide ((1000 : Int) ≤ sale.saleValue)) then
    "Sale value ₹" ++ toString sale.saleValue ++ " is below minimum ₹1000"
  else if sale.refunded == "YES" then
    "Purchase was refunded: \"" ++ sale.item ++ "\""
  else
    "Converted with \"" ++ sale.item ++ "\" for ₹" ++ toString sale.saleValue ++
      " on " ++ sale.date

/-- Initial conversion status of every cohort member
(dataProcessor.ts lines 440-445). -/
def initialConvMap : String → ConvStatus := fun _ =>
  { isConverted := false, reason := "No qualifying purchase found" }

/-- One step of the conversion scan (dataProcessor.ts lines 529-548): the first
qualifying sale converts the matched client and fixes the attribution; a
non-qualifying sale only refreshes the reason of a not-yet-converted client. -/
def applySale (cohort : List NewRecord) (m : String → ConvStatus) (sale : SaleRecord) :
    String → ConvStatus :=
  match matchClient cohort sale with
  | none => m
  | some client =>
    let isConv := saleQualifies client sale
    let current := m client.email
    if isConv && !current.isConverted then
      fun e =>
        if e == client.email then
          { isConverted := true, reason := conversionReason client sale,
            firstPurchaseDate := some sale.date, firstPurchaseItem := some sale.item,
            purchaseValue := some sale.saleValue }
        else m e
    else if !isConv && !current.isConverted then
      fun e =>
        if e == client.email then { current with reason := conversionReason client sale }
        else m e
    else m

/-- The conversion-status map after scanning all sales in dataset order. -/
def clientConversionMap (cohort : List NewRecord) (sales : List SaleRecord) :
    String → ConvStatus :=
  sales.foldl (applySale cohort) initialConvMap

/-- The qualifying sales kept by the conversion filter
(dataProcessor.ts lines 448-568, the filter's boolean result). -/
def convertedClients (cohort : List NewRecord) (sales : List SaleRecord) : List SaleRecord :=
  sales.filter fun sale =>
    match matchClient cohort sale with
    | none => false
    | some client => saleQualifies client sale

/-- Email a qualifying sale is tallied under (dataProcessor.ts lines 573-574):
customer email, else paying-customer email, else empty. -/
def saleTallyEmail (sale : SaleRecord) : String :=
  if sale.customerEmail != "" then sale.customerEmail
  else if sale.payingCustomerEmail != "" then sale.payingCustomerEmail
  else ""

/-- Distinct tally emails of the qualifying sales (dataProcessor.ts lines
573-575). -/
def convertedClientEmails (cohort : List NewRecord) (sales : List SaleRecord) : List String :=
  dedup ((convertedClients cohort sales).map saleTallyEmail)

/-- Converted-client count (dataProcessor.ts line 575). -/
def convertedClientsCount (cohort : List NewRecord) (sales : List SaleRecord) : Int :=
  ((convertedClientEmails cohort sales).length : Int)

/-- Cohort revenue (dataProcessor.ts lines 665-669): sum over every qualifying
sale kept by the filter, repeat purchases included. -/
def totalRevenue (cohort : List NewRecord) (sales : List SaleRecord) : Int :=
  ((convertedClients cohort sales).map (·.saleValue)).foldl (· + ·) 0

/-- Qualifying sales whose tallied client matches the influencer pattern
(dataProcessor.ts lines 693-699). -/
def influencerConvertedCount (cohort : List NewRecord) (sales : List SaleRecord) : Int :=
  (((convertedClients cohort sales).filter fun sale =>
      cohort.any fun client =>
        client.email == saleTallyEmail sale &&
        matchesPattern client.membershipUsed
          "sign-up|link|influencer|twain|ooo|lrs|x|p57|physique|complimentary").length : Int)

/-- Qualifying sales whose tallied client used the referral membership
(dataProcessor.ts lines 706-712). -/
def referralConvertedCount (cohort : List NewRecord) (sales : List SaleRecord) : Int :=
  (((convertedClients cohort sales).filter fun sale =>
      cohort.any fun client =>
        client.email == saleTallyEmail sale &&
        client.membershipUsed == "Studio Complimentary Referral Class").length : Int)

/-- Qualifying sales whose tallied client matches the trial pattern
(dataProcessor.ts lines 719-725). -/
def trialConvertedCount (cohort : List NewRecord) (sales : List SaleRecord) : Int :=
  (((convertedClients cohort sales).filter fun sale =>
      cohort.any fun client =>
        client.email == saleTallyEmail sale &&
        matchesPattern client.membershipUsed
          "Studio Open Barre Class|Newcomers 2 For 1").length : Int)

/-- Guarded percentage (the ternary `den > 0 ? num / den * 100 : 0` used by
every rate in dataProcessor.ts). -/
def pct (num den : Int) : Rat :=
  if 0 < den then ((num : Rat) / (den : Rat)) * 100 else 0

/-- Guarded quotient (the ternary `den > 0 ? num / den : 0` used for the
average revenue per client). -/
def safeDiv (num den : Int) : Rat :=
  if 0 < den then (num : Rat) / (den : Rat) else 0

/-- The metrics of one (teacher, location, period) cohort (the loop body of
dataProcessor.ts lines 272-807). -/
def cohortMetrics (enriched : List NewRecord) (bookings : List BookingRecord)
    (sales : List SaleRecord) (teacher location period : String) : ProcessedTeacherData :=
  let cohort := teacherNewClients enriched teacher location period
  let tb := teacherBookings bookings teacher location period
  let totalVisits : Int :=
    ((tb.filter fun b =>
        b.cancelled == "NO" && b.lateCancelled == "NO" && b.noShow == "NO").length : Int)
  let cancellations : Int := ((tb.filter fun b => b.cancelled == "YES").length : Int)
  let lateCancellations : Int := ((tb.filter fun b => b.lateCancelled == "YES").length : Int)
  let noShows : Int := ((tb.filter fun b => b.noShow == "YES").length : Int)
  let totalClasses : Int := ((dedup (tb.map (·.className))).length : Int)
  let uniqueClients : Int := ((dedup (tb.map (·.customerEmail))).length : Int)
  let newClientsCount : Int := (cohort.length : Int)
  let trials := trialsCount cohort
  let referrals := referralsCount cohort
  let hosted := hostedCount cohort
  let influencerSignups := influencerSignupsCount cohort
  let others := newClientsCount - (trials + referrals + hosted + influencerSignups)
  let retainedClientsCount : Int := ((retainedClientEmails cohort bookings).length : Int)
  let convertedCount := convertedClientsCount cohort sales
  let revenue := totalRevenue cohort sales
  { teacherName := teacher
    location := location
    period := period
    newClients := newClientsCount
    trials := trials
    referrals := referrals
    hosted := hosted
    influencerSignups := influencerSignups
    others := others
    retainedClients := retainedClientsCount
    retentionRate := pct retainedClientsCount newClientsCount
    convertedClients := convertedCount
    conversionRate := pct convertedCount newClientsCount
    totalRevenue := revenue
    averageRevenuePerClient := safeDiv revenue convertedCount
    noShowRate := pct noShows (tb.length : Int)
    lateCancellationRate := pct lateCancellations (tb.length : Int)
    firstTimeBuyerRate := pct convertedCount newClientsCount
    influencerConversionRate := pct (influencerConvertedCount cohort sales) influencerSignups
    referralConversionRate := pct (referralConvertedCount cohort sales) referrals
    trialToMembershipConversion := pct (trialConvertedCount cohort sales) trials
    totalVisits := totalVisits
    cancellations := cancellations
    lateCancellations := lateCancellations
    noShows := noShows
    totalClasses := totalClasses
    uniqueClients := uniqueClients }

/-- The cohorts emitted by the triple loop (dataProcessor.ts lines 269-281):
teachers, then locations, then periods, skipping keys with no cohort member. -/
def emittedCohorts (enriched : List NewRecord) (bookings : List BookingRecord)
    (sales : List SaleRecord) (teachers locations periods : List String) :
    List ProcessedTeacherData :=
  teachers.flatMap fun t =>
    locations.flatMap fun l =>
      periods.filterMap fun p =>
        if (teacherNewClients enriched t l p).length == 0 then none
        else some (cohortMetrics enriched bookings sales t l p)

/-- Fresh studio accumulator for a location (dataProcessor.ts lines 810-847);
its period is the period of the first cohort encountered for the location. -/
def initStudio (location period : String) : ProcessedTeacherData :=
  { teacherName := "All Teachers"
    location := location
    period := period
    newClients := 0, trials := 0, referrals := 0, hosted := 0, influencerSignups := 0
    others := 0, retainedClients := 0, retentionRate := 0, convertedClients := 0
    conversionRate := 0, totalRevenue := 0, averageRevenuePerClient := 0
    noShowRate := 0, lateCancellationRate := 0, firstTimeBuyerRate := 0
    influencerConversionRate := 0, referralConversionRate := 0
    trialToMembershipConversion := 0, totalVisits := 0, cancellations := 0
    lateCancellations := 0, noShows := 0, totalClasses := 0, uniqueClients := 0 }

/-- Accumulate one cohort into a studio record (dataProcessor.ts lines
850-867): only the counts are summed, the rate fields are left untouched. -/
def addCohortToStudio (studio d : ProcessedTeacherData) : ProcessedTeacherData :=
  { studio with
    newClients := studio.newClients + d.newClients
    trials := studio.trials + d.trials
    referrals := studio.referrals + d.referrals
    hosted := studio.hosted + d.hosted
    influencerSignups := studio.influencerSignups + d.influencerSignups
    others := studio.others + d.others
    retainedClients := studio.retainedClients + d.retainedClients
    convertedClients := studio.convertedClients + d.convertedClients
    totalRevenue := studio.totalRevenue + d.totalRevenue
    totalVisits := studio.totalVisits + d.totalVisits
    cancellations := studio.cancellations + d.cancellations
    lateCancellations := studio.lateCancellations + d.lateCancellations
    noShows := studio.noShows + d.noShows
    totalClasses := studio.totalClasses + d.totalClasses
    uniqueClients := studio.uniqueClients + d.uniqueClients }

/-- Lookup in the studio map, which is an association list keyed by location
(JS object `studioData[location]`, insertion-ordered). -/
def studioLookup (l : List (String × ProcessedTeacherData)) (k : String) :
    Option ProcessedTeacherData :=
  match l.find? (fun p => p.1 == k) with
  | some p => some p.2
  | none => none

/-- Replace the value at an existing key of the studio map. -/
def studioUpdate :
    List (String × ProcessedTeacherData) → String → ProcessedTeacherData →
      List (String × ProcessedTeacherData)
  | [], _, _ => []
  | (k, v) :: rest, key, nv =>
    if k == key then (k, nv) :: rest else (k, v) :: studioUpdate rest key nv

/-- Process one emitted cohort into the studio map (dataProcessor.ts lines
810-867): create the accumulator keyed by location on first sight, then sum
the counts in. -/
def studioStep (acc : List (String × ProcessedTeacherData)) (d : ProcessedTeacherData) :
    List (String × ProcessedTeacherData) :=
  match studioLookup acc d.location with
  | none => acc ++ [(d.location, addCohortToStudio (initStudio d.location d.period) d)]
  | some s => studioUpdate acc d.location (addCohortToStudio s d)

/-- The studio map accumulated over all emitted cohorts. -/
def studioData (cohorts : List ProcessedTeacherData) :
    List (String × ProcessedTeacherData) :=
  cohorts.foldl studioStep []

/-- Final studio rates (dataProcessor.ts lines 901-915): retention rate,
conversion rate and average revenue per client are recomputed from the summed
counts; every other rate field keeps its accumulated value. -/
def finalizeStudio (s : ProcessedTeacherData) : ProcessedTeacherData :=
  { s with
    retentionRate := pct s.retainedClients s.newClients
    conversionRate := pct s.convertedClients s.newClients
    averageRevenuePerClient := safeDiv s.totalRevenue s.convertedClients }

/-- The studio rollup records appended to the result (dataProcessor.ts lines
901-919), in insertion order of their locations. -/
def studioEntries (cohorts : List ProcessedTeacherData) : List ProcessedTeacherData :=
  (studioData cohorts).map fun p => finalizeStudio p.2

/-- The pipeline from cleaned data to the emitted records (processData in
dataProcessor.ts): a null sales dataset degrades to the empty list, intake
records are enriched, and per-cohort metrics plus per-location studio rollups
are produced.  The pair holds the per-cohort records and the studio records. -/
def processData (newData : List NewRecord) (bookingsData : List BookingRecord)
    (salesOpt : Option (List SaleRecord)) :
    List ProcessedTeacherData × List ProcessedTeacherData :=
  let cleanedSalesData := match salesOpt with | none => [] | some l => l
  let enriched := newData.map (enrichRecord bookingsData)
  let cohorts :=
    emittedCohorts enriched bookingsData cleanedSalesData
      (derivedTeachers bookingsData) (derivedLocations enriched) (derivedPeriods enriched)
  (cohorts, studioEntries cohorts)

/-- The vector of all count fields of a metrics record, the quantities the
studio accumulation sums (dataProcessor.ts lines 850-867). -/
structure Counts where
  newClients : Int
  trials : Int
  referrals : Int
  hosted : Int
  influencerSignups : Int
  others : Int
  retainedClients : Int
  convertedClients : Int
  totalRevenue : Int
  totalVisits : Int
  cancellations : Int
  lateCancellations : Int
  noShows : Int
  totalClasses : Int
  uniqueClients : Int
deriving DecidableEq

/-- Componentwise addition of count vectors. -/
def countsAddFn (a b : Counts) : Counts :=
  { newClients := a.newClients + b.newClients
    trials := a.trials + b.trials
    referrals := a.referrals + b.referrals
    hosted := a.hosted + b.hosted
    influencerSignups := a.influencerSignups + b.influencerSignups
    others := a.others + b.others
    retainedClients := a.retainedClients + b.retainedClients
    convertedClients := a.convertedClients + b.convertedClients
    totalRevenue := a.totalRevenue + b.totalRevenue
    totalVisits := a.totalVisits + b.totalVisits
    cancellations := a.cancellations + b.cancellations
    lateCancellations := a.lateCancellations + b.lateCancellations
    noShows := a.noShows + b.noShows
    totalClasses := a.totalClasses + b.totalClasses
    uniqueClients := a.uniqueClients + b.uniqueClients }

/-- The zero count vector. -/
def countsZeroC : Counts :=
  { newClients := 0, trials := 0, referrals := 0, hosted := 0, influencerSignups := 0
    others := 0, retainedClients := 0, convertedClients := 0, totalRevenue := 0
    totalVisits := 0, cancellations := 0, lateCancellations := 0, noShows := 0
    totalClasses := 0, uniqueClients := 0 }

instance : Add Counts := ⟨countsAddFn⟩

instance : Zero Counts := ⟨countsZeroC⟩

/-- Sum of a list of count vectors. -/
def countsSum (l : List Counts) : Counts := l.foldr (· + ·) 0

/-- The count fields of one metrics record. -/
def countsOf (d : ProcessedTeacherData) : Counts :=
  { newClients := d.newClients, trials := d.trials, referrals := d.referrals
    hosted := d.hosted, influencerSignups := d.influencerSignups, others := d.others
    retainedClients := d.retainedClients, convertedClients := d.convertedClients
    totalRevenue := d.totalRevenue, totalVisits := d.totalVisits
    cancellations := d.cancellations, lateCancellations := d.lateCancellations
    noShows := d.noShows, totalClasses := d.totalClasses
    uniqueClients := d.uniqueClients }

/-- Componentwise sum of the count vectors of the cohorts at one location. -/
def sumLoc (es : List ProcessedTeacherData) (loc : String) : Counts :=
  countsSum ((es.filter fun d => d.location == loc).map countsOf)

/-- Count vector found at a key of the studio map, the zero vector when the
key is absent. -/
def countsAt (l : List (String × ProcessedTeacherData)) (k : String) : Counts :=
  match studioLookup l k with
  | some v => countsOf v
  | none => 0

/-- Written from the words of claim C2: qualification with the exclusion
keyword "money-credit" (the claim's spelling) in place of the source's
"money-credits"; the other four conditions as in the source. -/
def specSaleQualifies (client : NewRecord) (sale : SaleRecord) : Bool :=
  isDateOnOrAfter sale.date client.firstVisitAt &&
  !(strIncludes (toLowerStr sale.category) "money-credit") &&
  !(strIncludes (toLowerStr sale.category) "retail") &&
  !(strIncludes (toLowerStr sale.category) "product") &&
  !(strIncludes (toLowerStr sale.item) "2 for 1") &&
  decide ((1000 : Int) ≤ sale.saleValue) &&
  sale.refunded != "YES"

/-- Written from the words of claim C4: return visits restricted to the
cohort's staff member, location and period, with the email, date and flag
conditions of the source. -/
def specReturnVisits (bookings : List BookingRecord) (cohort : List NewRecord)
    (teacher location period : String) : List BookingRecord :=
  bookings.filter fun booking =>
    booking.teacher == teacher && booking.location == location &&
    getMonthYearFromDate booking.classDate == period &&
    (match cohort.find? (fun client => client.email == booking.customerEmail) with
     | none => false
     | some matchingClient =>
       isDateAfter booking.classDate matchingClient.firstVisitAt &&
       booking.cancelled == "NO" && booking.lateCancelled == "NO" && booking.noShow == "NO")

/-- Concrete intake record: client of January 2024 at Studio L. -/
def c1new1 : NewRecord :=
  { firstName := "A", lastName := "One", email := "a@x.com",
    membershipUsed := "Standard Membership", firstVisitAt := "2024-01-05",
    firstVisit := "Barre Intro", firstVisitLocation := "Studio L", teacher := "" }

/-- Concrete intake record: client of February 2024 at the same location. -/
def c1new2 : NewRecord :=
  { c1new1 with firstName := "B", email := "b@x.com", firstVisitAt := "2024-02-05" }

/-- Concrete booking linking the January client to teacher T1. -/
def c1book1 : BookingRecord :=
  { className := "Barre Intro", classDate := "2024-01-05", location := "Studio L",
    teacher := "T1", customerEmail := "a@x.com", cancelled := "NO",
    lateCancelled := "NO", noShow := "NO" }

/-- Concrete booking linking the February client to teacher T1. -/
def c1book2 : BookingRecord :=
  { c1book1 with classDate := "2024-02-05", customerEmail := "b@x.com" }

/-- Concrete cohort member for the conversion-qualification claims. -/
def c2client : NewRecord :=
  { firstName := "C", lastName := "Two", email := "c@x.com",
    membershipUsed := "Standard Membership", firstVisitAt := "2024-01-05",
    firstVisit := "Barre Intro", firstVisitLocation := "Studio L", teacher := "T1" }

/-- Concrete sale whose category is exactly "Money-Credit" (singular). -/
def c2sale : SaleRecord :=
  { category := "Money-Credit", item := "Top Up", date := "2024-02-01",
    saleValue := 1500, refunded := "NO", payingCustomerEmail := "",
    customerEmail := "c@x.com" }

/-- Concrete sale of value 500, below the 1000 minimum. -/
def c2saleLow : SaleRecord :=
  { category := "Membership", item := "5 Class Pack", date := "2024-02-01",
    saleValue := 500, refunded := "NO", payingCustomerEmail := "",
    customerEmail := "c@x.com" }

/-- Concrete cohort member for the first-qualifying-sale claim. -/
def c3member : NewRecord :=
  { firstName := "M", lastName := "Em", email := "m@x.com",
    membershipUsed := "Standard Membership", firstVisitAt := "2024-01-05",
    firstVisit := "Barre Intro", firstVisitLocation := "Studio L", teacher := "T1" }

/-- First qualifying sale of the member, in dataset order. -/
def c3sale1 : SaleRecord :=
  { category := "Membership", item := "Pack A", date := "2024-02-01",
    saleValue := 1200, refunded := "NO", payingCustomerEmail := "",
    customerEmail := "m@x.com" }

/-- Second qualifying sale of the same member. -/
def c3sale2 : SaleRecord :=
  { c3sale1 with item := "Pack B", date := "2024-03-01", saleValue := 1500 }

/-- Concrete cohort member for the return-visit claim. -/
def c4member : NewRecord :=
  { firstName := "M", lastName := "Em", email := "m@x.com",
    membershipUsed := "Standard Membership", firstVisitAt := "2024-01-05",
    firstVisit := "Barre Intro", firstVisitLocation := "Studio L", teacher := "T1" }

/-- Concrete booking by the member at a different teacher, location and month. -/
def c4booking : BookingRecord :=
  { className := "Yoga", classDate := "2024-03-10", location := "Elsewhere",
    teacher := "OTHER", customerEmail := "m@x.com", cancelled := "NO",
    lateCancelled := "NO", noShow := "NO" }

/-- Concrete intake record for the studio-rate claim. -/
def c6new : NewRecord :=
  { firstName := "A", lastName := "One", email := "a@x.com",
    membershipUsed := "Standard Membership", firstVisitAt := "2024-01-05",
    firstVisit := "Barre Intro", firstVisitLocation := "Studio L", teacher := "" }

/-- Concrete booking linking the client to teacher T1. -/
def c6book1 : BookingRecord :=
  { className := "Barre Intro", classDate := "2024-01-05", location := "Studio L",
    teacher := "T1", customerEmail := "a@x.com", cancelled := "NO",
    lateCancelled := "NO", noShow := "NO" }

/-- Concrete booking of the same teacher and month marked a no-show. -/
def c6book2 : BookingRecord :=
  { c6book1 with classDate := "2024-01-20", noShow := "YES" }

/-- Concrete cohort member holding the referral membership label, which also
matches the influencer pattern (it contains "complimentary"). -/
def c7member : NewRecord :=
  { firstName := "R", lastName := "Ref", email := "r@x.com",
    membershipUsed := "Studio Complimentary Referral Class",
    firstVisitAt := "2024-01-05", firstVisit := "Barre Intro",
    firstVisitLocation := "Studio L", teacher := "T1" }

/-- Concrete cohort member for the tally-email claim. -/
def c10member : NewRecord :=
  { firstName := "M", lastName := "Em", email := "m@x.com",
    membershipUsed := "Standard Membership", firstVisitAt := "2024-01-05",
    firstVisit := "Barre Intro", firstVisitLocation := "Studio L", teacher := "T1" }

/-- Qualifying sale matched through the paying-customer email while carrying a
different customer email. -/
def c10sale1 : SaleRecord :=
  { category := "Membership", item := "10 Class Pack", date := "2024-02-01",
    saleValue := 1200, refunded := "NO", payingCustomerEmail := "m@x.com",
    customerEmail := "a@x.com" }

/-- Second such sale with yet another customer email. -/
def c10sale2 : SaleRecord :=
  { c10sale1 with date := "2024-02-10", saleValue := 1500, customerEmail := "b@x.com" }

/-- First sale of the list, in dataset order, that the conversion scan books
under the given email: its matched cohort member has that email and the sale
qualifies for that member.  Returns the matched member with the sale. -/
def firstQualifyingFor (cohort : List NewRecord) (sales : List SaleRecord) (e : String) :
    Option (NewRecord × SaleRecord) :=
  match sales with
  | [] => none
  | s :: rest =>
    match matchClient cohort s with
    | some c =>
      if c.email == e && saleQualifies c s then some (c, s)
      else firstQualifyingFor cohort rest e
    | none => firstQualifyingFor cohort rest e

/-- The conversion entry recorded for the first qualifying sale
(dataProcessor.ts lines 533-541). -/
def convertedEntry (client : NewRecord) (sale : SaleRecord) : ConvStatus :=
  { isConverted := true, reason := conversionReason client sale,
    firstPurchaseDate := some sale.date, firstPurchaseItem := some sale.item,
    purchaseValue := some sale.saleValue }

/-! ### Field projections of a cohort record -/

theorem cm_newClients (e : List NewRecord) (b : List BookingRecord) (s : List SaleRecord)
    (t l p : String) :
    (cohortMetrics e b s t l p).newClients = ((teacherNewClients e t l p).length : Int) := rfl

theorem cm_trials (e : List NewRecord) (b : List BookingRecord) (s : List SaleRecord)
    (t l p : String) :
    (cohortMetrics e b s t l p).trials = trialsCount (teacherNewClients e t l p) := rfl

theorem cm_referrals (e : List NewRecord) (b : List BookingRecord) (s : List SaleRecord)
    (t l p : String) :
    (cohortMetrics e b s t l p).referrals = referralsCount (teacherNewClients e t l p) := rfl

theorem cm_hosted (e : List NewRecord) (b : List BookingRecord) (s : List SaleRecord)
    (t l p : String) :
    (cohortMetrics e b s t l p).hosted = hostedCount (teacherNewClients e t l p) := rfl

theorem cm_influencerSignups (e : List NewRecord) (b : List BookingRecord)
    (s : List SaleRecord) (t l p : String) :
    (cohortMetrics e b s t l p).influencerSignups =
      influencerSignupsCount (teacherNewClients e t l p) := rfl

theorem cm_others (e : List NewRecord) (b : List BookingRecord) (s : List SaleRecord)
    (t l p : String) :
    (cohortMetrics e b s t l p).others =
      ((teacherNewClients e t l p).length : Int) -
        (trialsCount (teacherNewClients e t l p) + referralsCount (teacherNewClients e t l p) +
         hostedCount (teacherNewClients e t l p) +
         influencerSignupsCount (teacherNewClients e t l p)) := rfl

theorem cm_retainedClients (e : List NewRecord) (b : List BookingRecord) (s : List SaleRecord)
    (t l p : String) :
    (cohortMetrics e b s t l p).retainedClients =
      ((retainedClientEmails (teacherNewClients e t l p) b).length : Int) := rfl

theorem cm_retentionRate (e : List NewRecord) (b : List BookingRecord) (s : List SaleRecord)
    (t l p : String) :
    (cohortMetrics e b s t l p).retentionRate =
      pct ((retainedClientEmails (teacherNewClients e t l p) b).length : Int)
        ((teacherNewClients e t l p).length : Int) := rfl

theorem cm_convertedClients (e : List NewRecord) (b : List BookingRecord) (s : List SaleRecord)
    (t l p : String) :
    (cohortMetrics e b s t l p).convertedClients =
      convertedClientsCount (teacherNewClients e t l p) s := rfl

theorem cm_conversionRate (e : List NewRecord) (b : List BookingRecord) (s : List SaleRecord)
    (t l p : String) :
    (cohortMetrics e b s t l p).conversionRate =
      pct (convertedClientsCount (teacherNewClients e t l p) s)
        ((teacherNewClients e t l p).length : Int) := rfl

theorem cm_totalRevenue (e : List NewRecord) (b : List BookingRecord) (s : List SaleRecord)
    (t l p : String) :
    (cohortMetrics e b s t l p).totalRevenue = totalRevenue (teacherNewClients e t l p) s := rfl

theorem cm_averageRevenuePerClient (e : List NewRecord) (b : List BookingRecord)
    (s : List SaleRecord) (t l p : String) :
    (cohortMetrics e b s t l p).averageRevenuePerClient =
      safeDiv (totalRevenue (teacherNewClients e t l p) s)
        (convertedClientsCount (teacherNewClients e t l p) s) := rfl

theorem cm_noShowRate (e : List NewRecord) (b : List BookingRecord) (s : List SaleRecord)
    (t l p : String) :
    (cohortMetrics e b s t l p).noShowRate =
      pct (((teacherBookings b t l p).filter fun bk => bk.noShow == "YES").length : Int)
        ((teacherBookings b t l p).length : Int) := rfl

theorem cm_lateCancellationRate (e : List NewRecord) (b : List BookingRecord)
    (s : List SaleRecord) (t l p : String) :
    (cohortMetrics e b s t l p).lateCancellationRate =
      pct (((teacherBookings b t l p).filter fun bk => bk.lateCancelled == "YES").length : Int)
        ((teacherBookings b t l p).length : Int) := rfl

theorem cm_firstTimeBuyerRate (e : List NewRecord) (b : List BookingRecord)
    (s : List SaleRecord) (t l p : String) :
    (cohortMetrics e b s t l p).firstTimeBuyerRate =
      pct (convertedClientsCount (teacherNewClients e t l p) s)
        ((teacherNewClients e t l p).length : Int) := rfl

theorem cm_influencerConversionRate (e : List NewRecord) (b : List BookingRecord)
    (s : List SaleRecord) (t l p : String) :
    (cohortMetrics e b s t l p).influencerConversionRate =
      pct (influencerConvertedCount (teacherNewClients e t l p) s)
        (influencerSignupsCount (teacherNewClients e t l p)) := rfl

theorem cm_referralConversionRate (e : List NewRecord) (b : List BookingRecord)
    (s : List SaleRecord) (t l p : String) :
    (cohortMetrics e b s t l p).referralConversionRate =
      pct (referralConvertedCount (teacherNewClients e t l p) s)
        (referralsCount (teacherNewClients e t l p)) := rfl

theorem cm_trialToMembershipConversion (e : List NewRecord) (b : List BookingRecord)
    (s : List SaleRecord) (t l p : String) :
    (cohortMetrics e b s t l p).trialToMembershipConversion =
      pct (trialConvertedCount (teacherNewClients e t l p) s)
        (trialsCount (teacherNewClients e t l p)) := rfl

/-! ### Small arithmetic and list helpers -/

theorem pct_den_zero (n : Int) : pct n 0 = 0 := by simp [pct]

theorem safeDiv_den_zero (n : Int) : safeDiv n 0 = 0 := by simp [safeDiv]

theorem retainedFold_eq_filter (rv : List BookingRecord) :
    ∀ l : List NewRecord,
      retainedFold rv l = (l.filter (clientRetained rv)).map (fun c => c.email) := by
  intro l
  induction l with
  | nil => rfl
  | cons c cs ih =>
    simp only [retainedFold, List.filter_cons]
    cases h : clientRetained rv c <;> simp [h, ih]

/-! ### Claim C2 -/

/-- C2 (counterexample): a sale whose category is exactly "Money-Credit"
contains the claim's keyword "money-credit" yet qualifies under the source,
whose keyword is "money-credits"; the claim's iff fails at this input. -/
theorem c2_keyword_cex :
    saleQualifies c2client c2sale = true ∧
    specSaleQualifies c2client c2sale = false ∧
    strIncludes (toLowerStr c2sale.category) "money-credit" = true := by decide

/-- C2 (amended): a sale qualifies for a member iff the sale date is on or
after the member's first visit, the category contains none of "money-credits"
(the source's spelling), "retail", "product" case-insensitively, the item does
not contain "2 for 1" case-insensitively, the value is at least 1000 and the
sale is not refunded; in particular a value below 1000 never qualifies. -/
theorem c2_conversion_qualification (client : NewRecord) (sale : SaleRecord) :
    (saleQualifies client sale = true ↔
      (isDateOnOrAfter sale.date client.firstVisitAt = true ∧
       strIncludes (toLowerStr sale.category) "money-credits" = false ∧
       strIncludes (toLowerStr sale.category) "retail" = false ∧
       strIncludes (toLowerStr sale.category) "product" = false ∧
       strIncludes (toLowerStr sale.item) "2 for 1" = false ∧
       (1000 : Int) ≤ sale.saleValue ∧
       sale.refunded ≠ "YES")) ∧
    (sale.saleValue < 1000 → saleQualifies client sale = false) := by
  have hiff : saleQualifies client sale = true ↔
      (isDateOnOrAfter sale.date client.firstVisitAt = true ∧
       strIncludes (toLowerStr sale.category) "money-credits" = false ∧
       strIncludes (toLowerStr sale.category) "retail" = false ∧
       strIncludes (toLowerStr sale.category) "product" = false ∧
       strIncludes (toLowerStr sale.item) "2 for 1" = false ∧
       (1000 : Int) ≤ sale.saleValue ∧
       sale.refunded ≠ "YES") := by
    simp only [saleQualifies, Bool.and_eq_true, Bool.not_eq_true', decide_eq_true_eq,
      bne_iff_ne]
    tauto
  refine ⟨hiff, fun hlt => ?_⟩
  cases hq : saleQualifies client sale
  · rfl
  · exact absurd (hiff.mp hq).2.2.2.2.2.1 (by omega)

/-- C2 (witness): the value-500 sale is rejected by the amended theorem. -/
theorem c2_conversion_qualification_witness :
    saleQualifies c2client c2saleLow = false :=
  (c2_conversion_qualification c2client c2saleLow).2 (by decide)

/-! ### Claim C5 -/

/-- C5: the retained members of a cohort are exactly those meeting the
channel-dependent threshold: at least two return visits when the first-visit
label contains "2 for 1" case-insensitively, at least one otherwise. -/
theorem c5_retention_threshold (cohort : List NewRecord) (bookings : List BookingRecord) :
    retainedClientEmails cohort bookings =
      ((cohort.filter fun c =>
          if strIncludes (toLowerStr c.firstVisit) "2 for 1" then
            decide (2 ≤ ((returnVisits bookings cohort).filter
              (fun v => v.customerEmail == c.email)).length)
          else
            decide (1 ≤ ((returnVisits bookings cohort).filter
              (fun v => v.customerEmail == c.email)).length)).map (fun c => c.email)) := by
  rw [retainedClientEmails, retainedFold_eq_filter]
  rfl

/-! ### Claim C7 -/

/-- C7 (counterexample): a single member with the referral membership label is
counted both as a referral and as an influencer sign-up (the label contains
"complimentary"), so the classification is not mutually exclusive and the
"others" remainder is negative. -/
theorem c7_channel_cex :
    (cohortMetrics [c7member] [] [] "T1" "Studio L" "January 2024").newClients = 1 ∧
    (cohortMetrics [c7member] [] [] "T1" "Studio L" "January 2024").referrals = 1 ∧
    (cohortMetrics [c7member] [] [] "T1" "Studio L" "January 2024").influencerSignups = 1 ∧
    (cohortMetrics [c7member] [] [] "T1" "Studio L" "January 2024").others = -1 := by decide

/-- C7 (amended): the four channel counts test their patterns independently
of one another (a member may be counted by several), each of the four is
non-negative, and "others" is defined as the remainder, so the five channel
counts always sum to the new-client count; "others" itself may be negative. -/
theorem c7_channel_partition (enriched : List NewRecord) (bookings : List BookingRecord)
    (sales : List SaleRecord) (t l p : String) :
    (cohortMetrics enriched bookings sales t l p).trials +
        (cohortMetrics enriched bookings sales t l p).referrals +
        (cohortMetrics enriched bookings sales t l p).hosted +
        (cohortMetrics enriched bookings sales t l p).influencerSignups +
        (cohortMetrics enriched bookings sales t l p).others =
      (cohortMetrics enriched bookings sales t l p).newClients ∧
    0 ≤ (cohortMetrics enriched bookings sales t l p).trials ∧
    0 ≤ (cohortMetrics enriched bookings sales t l p).referrals ∧
    0 ≤ (cohortMetrics enriched bookings sales t l p).hosted ∧
    0 ≤ (cohortMetrics enriched bookings sales t l p).influencerSignups := by
  rw [cm_trials, cm_referrals, cm_hosted, cm_influencerSignups, cm_others, cm_newClients]
  unfold trialsCount referralsCount hostedCount influencerSignupsCount
  omega

/-! ### Claim C10 -/

/-- C10: with one cohort member matched twice through the paying-customer
email while the sales carry two different customer emails, the converted count
(2) differs from the number of members whose map entry is converted (1), and
the tallied emails are not the member's. -/
theorem c10_tally_email_mismatch :
    (cohortMetrics [c10member] [] [c10sale1, c10sale2] "T1" "Studio L"
        "January 2024").convertedClients = 2 ∧
    ((teacherNewClients [c10member] "T1" "Studio L" "January 2024").filter
        (fun c => ((clientConversionMap
          (teacherNewClients [c10member] "T1" "Studio L" "January 2024")
          [c10sale1, c10sale2]) c.email).isConverted)).length = 1 ∧
    convertedClientEmails (teacherNewClients [c10member] "T1" "Studio L" "January 2024")
        [c10sale1, c10sale2] = ["a@x.com", "b@x.com"] ∧
    ((convertedClientEmails (teacherNewClients [c10member] "T1" "Studio L" "January 2024")
        [c10sale1, c10sale2]).contains "m@x.com") = false := by decide

/-! ### Conversion-scan lemmas -/

theorem applySale_preserves (cohort : List NewRecord) (m : String → ConvStatus)
    (sale : SaleRecord) (e : String) (h : (m e).isConverted = true) :
    applySale cohort m sale e = m e := by
  unfold applySale
  cases hm : matchClient cohort sale with
  | none => rfl
  | some c =>
    by_cases hce : c.email = e
    · subst hce
      simp [h]
    · cases hq : saleQualifies c sale <;> cases hc : (m c.email).isConverted <;>
        simp [hq, hc, Ne.symm hce]

theorem convFold_preserves (cohort : List NewRecord) :
    ∀ (sales : List SaleRecord) (m : String → ConvStatus) (e : String),
      (m e).isConverted = true → sales.foldl (applySale cohort) m e = m e := by
  intro sales
  induction sales with
  | nil => intro m e _; rfl
  | cons s rest ih =>
    intro m e h
    have hstep : applySale cohort m s e = m e := applySale_preserves cohort m s e h
    rw [List.foldl_cons, ih (applySale cohort m s) e (by rw [hstep]; exact h), hstep]

theorem convFold_first (cohort : List NewRecord) :
    ∀ (sales : List SaleRecord) (m : String → ConvStatus) (e : String) (c₀ : NewRecord)
      (s₀ : SaleRecord), (m e).isConverted = false →
      firstQualifyingFor cohort sales e = some (c₀, s₀) →
      sales.foldl (applySale cohort) m e = convertedEntry c₀ s₀ := by
  intro sales
  induction sales with
  | nil => intro m e c₀ s₀ _ hf; simp [firstQualifyingFor] at hf
  | cons s rest ih =>
    intro m e c₀ s₀ hm hf
    rw [List.foldl_cons]
    cases hmc : matchClient cohort s with
    | none =>
      have hid : applySale cohort m s = m := by unfold applySale; rw [hmc]
      rw [hid]
      refine ih m e c₀ s₀ hm ?_
      simpa [firstQualifyingFor, hmc] using hf
    | some c =>
      by_cases hq : (c.email == e && saleQualifies c s) = true
      · simp only [firstQualifyingFor, hmc, hq, if_true] at hf
        obtain ⟨hc0, hs0⟩ : c = c₀ ∧ s = s₀ := by simpa using hf
        obtain ⟨hce, hqs⟩ : (c.email == e) = true ∧ saleQualifies c s = true := by
          simpa using hq
        have hceq : c.email = e := beq_iff_eq.mp hce
        have hcur : (m c.email).isConverted = false := by rw [hceq]; exact hm
        have hfun : applySale cohort m s e = convertedEntry c s := by
          unfold applySale
          rw [hmc]
          simp [hqs, hcur, hceq, hm, convertedEntry]
        have hconv : ((applySale cohort m s) e).isConverted = true := by
          rw [hfun]; rfl
        rw [convFold_preserves cohort rest (applySale cohort m s) e hconv, hfun, ← hc0, ← hs0]
      · have hqf : (c.email == e && saleQualifies c s) = false := by
          cases hqv : (c.email == e && saleQualifies c s)
          · rfl
          · exact absurd hqv hq
        have hf' : firstQualifyingFor cohort rest e = some (c₀, s₀) := by
          simpa [firstQualifyingFor, hmc, hqf] using hf
        refine ih (applySale cohort m s) e c₀ s₀ ?_ hf'
        unfold applySale
        rw [hmc]
        by_cases hce : c.email = e
        · have hq2 : saleQualifies c s = false := by
            cases hqs : saleQualifies c s
            · rfl
            · rw [hqs, beq_iff_eq.mpr hce] at hqf; simp at hqf
          have hcur : (m c.email).isConverted = false := by rw [hce]; exact hm
          simp [hq2, hcur, hce, hm]
        · cases hqs : saleQualifies c s <;> cases hmc2 : (m c.email).isConverted <;>
            simp [hqs, hmc2, Ne.symm hce, hm]

theorem foldl_add_eq_sum : ∀ (l : List Int) (a : Int), l.foldl (· + ·) a = a + l.sum := by
  intro l
  induction l with
  | nil => intro a; simp
  | cons x xs ih => intro a; rw [List.foldl_cons, ih, List.sum_cons]; ring

/-! ### Claim C3 -/

/-- C3: whenever the sales list contains a qualifying sale booked under an
email, the conversion map fixes that email's attribution (date, item, value,
reason) to the first such sale in dataset order, later qualifying sales never
overwriting it; and the cohort's total revenue is the sum of the values of all
qualifying sales, repeat purchases by the same member included. -/
theorem c3_first_purchase_attribution (cohort : List NewRecord) (sales : List SaleRecord)
    (e : String) (c₀ : NewRecord) (s₀ : SaleRecord)
    (h : firstQualifyingFor cohort sales e = some (c₀, s₀)) :
    clientConversionMap cohort sales e = convertedEntry c₀ s₀ ∧
    totalRevenue cohort sales =
      ((sales.filter fun s =>
          match matchClient cohort s with
          | none => false
          | some c => saleQualifies c s).map (fun s => s.saleValue)).sum := by
  constructor
  · exact convFold_first cohort sales initialConvMap e c₀ s₀ rfl h
  · rw [totalRevenue, foldl_add_eq_sum, zero_add]
    rfl

/-- C3 (witness): with two qualifying sales of one member the map keeps the
first sale's attribution while the revenue sums both (1200 + 1500). -/
theorem c3_first_purchase_attribution_witness :
    clientConversionMap [c3member] [c3sale1, c3sale2] "m@x.com" =
      convertedEntry c3member c3sale1 ∧
    totalRevenue [c3member] [c3sale1, c3sale2] = 2700 := by
  have h := c3_first_purchase_attribution [c3member] [c3sale1, c3sale2] "m@x.com"
    c3member c3sale1 (by decide)
  exact ⟨h.1, by decide⟩

/-! ### Claim C4 -/

/-- C4 (counterexample): a booking by a cohort member at a different teacher,
location and month is counted as a return visit by the source, while the
claim's restriction to the cohort's staff, location and period would drop
it. -/
theorem c4_return_visits_cex :
    returnVisits [c4booking] (teacherNewClients [c4member] "T1" "Studio L" "January 2024") =
      [c4booking] ∧
    specReturnVisits [c4booking] (teacherNewClients [c4member] "T1" "Studio L" "January 2024")
      "T1" "Studio L" "January 2024" = [] := by decide

/-- C4 (amended): a booking is a return visit iff it belongs to the full
attendance dataset, with no restriction to the cohort's staff member, location
or period, its customer email matches a cohort member (the first member with
that email), its class date is strictly after that member's first visit, and
its cancelled, late-cancelled and no-show flags are all "NO". -/
theorem c4_return_visits_membership (bookings : List BookingRecord)
    (cohort : List NewRecord) (b : BookingRecord) :
    b ∈ returnVisits bookings cohort ↔
      (b ∈ bookings ∧
        ∃ c, cohort.find? (fun cl => cl.email == b.customerEmail) = some c ∧
          isDateAfter b.classDate c.firstVisitAt = true ∧
          b.cancelled = "NO" ∧ b.lateCancelled = "NO" ∧ b.noShow = "NO") := by
  rw [returnVisits, List.mem_filter]
  constructor
  · rintro ⟨hb, hp⟩
    refine ⟨hb, ?_⟩
    cases hfind : cohort.find? (fun cl => cl.email == b.customerEmail) with
    | none => rw [hfind] at hp; simp at hp
    | some c =>
      rw [hfind] at hp
      simp only [Bool.and_eq_true, beq_iff_eq] at hp
      exact ⟨c, rfl, hp.1.1.1, hp.1.1.2, hp.1.2, hp.2⟩
  · rintro ⟨hb, c, hfind, h1, h2, h3, h4⟩
    refine ⟨hb, ?_⟩
    rw [hfind]
    simp [h1, h2, h3, h4]

/-! ### Studio-map lemmas -/

theorem countsOf_add (v d : ProcessedTeacherData) :
    countsOf (addCohortToStudio v d) = countsOf v + countsOf d := rfl

theorem countsOf_init (l p : String) : countsOf (initStudio l p) = 0 := rfl

theorem countsOf_finalize (v : ProcessedTeacherData) :
    countsOf (finalizeStudio v) = countsOf v := rfl

theorem counts_add_zero (a : Counts) : a + 0 = a := by
  show countsAddFn a countsZeroC = a
  cases a
  simp [countsAddFn, countsZeroC]

theorem counts_zero_add (a : Counts) : 0 + a = a := by
  show countsAddFn countsZeroC a = a
  cases a
  simp [countsAddFn, countsZeroC]

theorem counts_add_assoc (a b c : Counts) : a + b + c = a + (b + c) := by
  show countsAddFn (countsAddFn a b) c = countsAddFn a (countsAddFn b c)
  cases a
  cases b
  cases c
  simp [countsAddFn, add_assoc]

theorem countsSum_cons (a : Counts) (l : List Counts) :
    countsSum (a :: l) = a + countsSum l := rfl

theorem studioLookup_cons (x : String × ProcessedTeacherData)
    (rest : List (String × ProcessedTeacherData)) (k : String) :
    studioLookup (x :: rest) k = if x.1 == k then some x.2 else studioLookup rest k := by
  by_cases h : x.1 == k
  · simp [studioLookup, List.find?_cons_of_pos, h]
  · simp only [Bool.not_eq_true] at h
    simp [studioLookup, List.find?_cons_of_neg, h]

theorem studioLookup_append (l₁ l₂ : List (String × ProcessedTeacherData)) (k : String) :
    studioLookup (l₁ ++ l₂) k =
      match studioLookup l₁ k with
      | some v => some v
      | none => studioLookup l₂ k := by
  induction l₁ with
  | nil => rfl
  | cons x rest ih =>
    rw [List.cons_append, studioLookup_cons, studioLookup_cons]
    by_cases h : x.1 == k <;> simp [h, ih]

theorem studioLookup_update_self (l : List (String × ProcessedTeacherData)) (k0 : String)
    (v : ProcessedTeacherData) (s : ProcessedTeacherData)
    (h : studioLookup l k0 = some s) :
    studioLookup (studioUpdate l k0 v) k0 = some v := by
  induction l with
  | nil => simp [studioLookup] at h
  | cons x rest ih =>
    rw [studioLookup_cons] at h
    unfold studioUpdate
    by_cases hx : (x.1 == k0) = true
    · rw [if_pos hx, studioLookup_cons]
      simp [hx]
    · rw [if_neg hx, studioLookup_cons, if_neg hx]
      rw [if_neg hx] at h
      exact ih h

theorem studioLookup_update_other (l : List (String × ProcessedTeacherData)) (k0 : String)
    (v : ProcessedTeacherData) (k : String) (h : k ≠ k0) :
    studioLookup (studioUpdate l k0 v) k = studioLookup l k := by
  induction l with
  | nil => rfl
  | cons x rest ih =>
    unfold studioUpdate
    by_cases hx : (x.1 == k0) = true
    · rw [if_pos hx, studioLookup_cons, studioLookup_cons]
      have hxk : (x.1 == k) = false := by
        have hk0 : x.1 = k0 := beq_iff_eq.mp hx
        simp [hk0, Ne.symm h]
      simp [hxk]
    · rw [if_neg hx, studioLookup_cons, studioLookup_cons, ih]

theorem studioUpdate_fst (l : List (String × ProcessedTeacherData)) (k : String)
    (v : ProcessedTeacherData) :
    (studioUpdate l k v).map Prod.fst = l.map Prod.fst := by
  induction l with
  | nil => rfl
  | cons x rest ih =>
    unfold studioUpdate
    by_cases hx : x.1 == k
    · have : x.1 = k := beq_iff_eq.mp hx
      simp [hx, this]
    · simp [hx, ih]

theorem studioLookup_none_iff (l : List (String × ProcessedTeacherData)) (k : String) :
    studioLookup l k = none ↔ k ∉ l.map Prod.fst := by
  induction l with
  | nil => simp [studioLookup]
  | cons x rest ih =>
    rw [studioLookup_cons]
    by_cases hx : x.1 == k
    · have : x.1 = k := beq_iff_eq.mp hx
      simp [hx, this]
    · have : ¬x.1 = k := by simpa using hx
      simp [hx, ih, Ne.symm this]

theorem studioLookup_some_mem (l : List (String × ProcessedTeacherData)) (k : String)
    (v : ProcessedTeacherData) (h : studioLookup l k = some v) : (k, v) ∈ l := by
  induction l with
  | nil => simp [studioLookup] at h
  | cons x rest ih =>
    rw [studioLookup_cons] at h
    by_cases hx : x.1 == k
    · rw [if_pos hx, Option.some.injEq] at h
      have hk : x.1 = k := beq_iff_eq.mp hx
      exact List.mem_cons.mpr (Or.inl (by rw [← hk, ← h]))
    · rw [if_neg hx] at h
      exact List.mem_cons_of_mem _ (ih h)

theorem mem_studioUpdate (l : List (String × ProcessedTeacherData)) (k : String)
    (v : ProcessedTeacherData) (p : String × ProcessedTeacherData)
    (hp : p ∈ studioUpdate l k v) : p ∈ l ∨ p = (k, v) := by
  induction l with
  | nil => simp [studioUpdate] at hp
  | cons x rest ih =>
    unfold studioUpdate at hp
    by_cases hx : x.1 == k
    · simp only [hx, if_true] at hp
      rcases List.mem_cons.mp hp with heq | htail
      · right
        rw [heq]
        rw [beq_iff_eq.mp hx]
      · left
        exact List.mem_cons_of_mem _ htail
    · simp only [hx, if_false] at hp
      rcases List.mem_cons.mp hp with heq | htail
      · left
        rw [heq]
        exact List.mem_cons_self _ _
      · rcases ih htail with h | h
        · left
          exact List.mem_cons_of_mem _ h
        · right
          exact h

theorem studioStep_keys_nodup (acc : List (String × ProcessedTeacherData))
    (d : ProcessedTeacherData) (h : (acc.map Prod.fst).Nodup) :
    ((studioStep acc d).map Prod.fst).Nodup := by
  unfold studioStep
  cases hl : studioLookup acc d.location with
  | none =>
    have hnot : d.location ∉ acc.map Prod.fst := (studioLookup_none_iff acc d.location).mp hl
    simp [List.nodup_append, h, List.disjoint_singleton, hnot]
  | some s =>
    rw [studioUpdate_fst]
    exact h

theorem studioFold_keys_nodup (es : List ProcessedTeacherData) :
    ∀ acc : List (String × ProcessedTeacherData), (acc.map Prod.fst).Nodup →
      ((es.foldl studioStep acc).map Prod.fst).Nodup := by
  induction es with
  | nil => intro acc h; exact h
  | cons d rest ih =>
    intro acc h
    rw [List.foldl_cons]
    exact ih (studioStep acc d) (studioStep_keys_nodup acc d h)

theorem lookup_of_mem_nodup :
    ∀ (l : List (String × ProcessedTeacherData)), (l.map Prod.fst).Nodup →
      ∀ (k : String) (v : ProcessedTeacherData), (k, v) ∈ l → studioLookup l k = some v := by
  intro l
  induction l with
  | nil => intro _ k v h; simp at h
  | cons x rest ih =>
    intro hnd k v hm
    rw [studioLookup_cons]
    rcases List.mem_cons.mp hm with heq | htail
    · simp [← heq]
    · have hk : k ∈ rest.map Prod.fst := List.mem_map.mpr ⟨(k, v), htail, rfl⟩
      rw [List.map_cons] at hnd
      obtain ⟨hx1, hx2⟩ := List.nodup_cons.mp hnd
      have hne : ¬(x.1 == k) = true := by
        simp only [beq_iff_eq]
        intro heq
        exact hx1 (heq ▸ hk)
      rw [if_neg hne]
      exact ih hx2 k v htail

theorem countsAt_step (acc : List (String × ProcessedTeacherData))
    (d : ProcessedTeacherData) (k : String) :
    countsAt (studioStep acc d) k =
      countsAt acc k + (if d.location == k then countsOf d else 0) := by
  unfold studioStep
  cases hl : studioLookup acc d.location with
  | none =>
    unfold countsAt
    rw [studioLookup_append]
    cases hak : studioLookup acc k with
    | some w =>
      have hne : ¬(d.location == k) = true := by
        simp only [beq_iff_eq]
        intro heq
        rw [heq, hak] at hl
        exact Option.noConfusion hl
      rw [if_neg hne]
      show countsOf w = countsOf w + 0
      rw [counts_add_zero]
    | none =>
      rw [studioLookup_cons]
      by_cases hdk : (d.location == k) = true
      · rw [if_pos hdk, if_pos hdk]
        show countsOf (addCohortToStudio (initStudio d.location d.period) d) = 0 + countsOf d
        rw [countsOf_add, countsOf_init, counts_zero_add]
      · rw [if_neg hdk, if_neg hdk]
        show (0 : Counts) = 0 + 0
        rw [counts_add_zero]
  | some s =>
    by_cases hdk : (d.location == k) = true
    · have hkeq : d.location = k := beq_iff_eq.mp hdk
      unfold countsAt
      rw [← hkeq, studioLookup_update_self acc d.location (addCohortToStudio s d) s hl, hl]
      rw [if_pos (by simp)]
      show countsOf (addCohortToStudio s d) = countsOf s + countsOf d
      rw [countsOf_add]
    · have hne : k ≠ d.location := by
        intro heq
        rw [heq] at hdk
        simp at hdk
      unfold countsAt
      rw [studioLookup_update_other acc d.location (addCohortToStudio s d) k hne]
      rw [if_neg hdk, counts_add_zero]

theorem countsAt_fold (es : List ProcessedTeacherData) :
    ∀ (acc : List (String × ProcessedTeacherData)) (k : String),
      countsAt (es.foldl studioStep acc) k = countsAt acc k + sumLoc es k := by
  induction es with
  | nil =>
    intro acc k
    rw [List.foldl_nil, show sumLoc [] k = 0 from rfl, counts_add_zero]
  | cons d rest ih =>
    intro acc k
    rw [List.foldl_cons, ih, countsAt_step]
    by_cases hdk : (d.location == k) = true
    · rw [if_pos hdk]
      have hs : sumLoc (d :: rest) k = countsOf d + sumLoc rest k := by
        simp [sumLoc, List.filter_cons, hdk, countsSum_cons]
      rw [hs, counts_add_assoc]
    · rw [if_neg hdk, counts_add_zero]
      have hs : sumLoc (d :: rest) k = sumLoc rest k := by
        simp [sumLoc, List.filter_cons, hdk]
      rw [hs]

theorem studioFold_pred (P : String × ProcessedTeacherData → Prop)
    (es : List ProcessedTeacherData) :
    ∀ acc : List (String × ProcessedTeacherData),
      (∀ k v d, d ∈ es → P (k, v) → P (k, addCohortToStudio v d)) →
      (∀ d ∈ es, P (d.location, addCohortToStudio (initStudio d.location d.period) d)) →
      (∀ p ∈ acc, P p) →
      ∀ p ∈ es.foldl studioStep acc, P p := by
  induction es with
  | nil => intro acc _ _ hacc p hp; exact hacc p hp
  | cons d rest ih =>
    intro acc hadd hnew hacc p hp
    rw [List.foldl_cons] at hp
    refine ih (studioStep acc d)
      (fun k v d2 hd2 => hadd k v d2 (List.mem_cons_of_mem _ hd2))
      (fun d2 hd2 => hnew d2 (List.mem_cons_of_mem _ hd2)) ?_ p hp
    intro q hq
    unfold studioStep at hq
    cases hl : studioLookup acc d.location with
    | none =>
      rw [hl] at hq
      rcases List.mem_append.mp hq with h | h
      · exact hacc q h
      · have hqe : q = (d.location, addCohortToStudio (initStudio d.location d.period) d) := by
          simpa using h
        rw [hqe]
        exact hnew d (List.mem_cons_self _ _)
    | some s =>
      rw [hl] at hq
      rcases mem_studioUpdate acc d.location (addCohortToStudio s d) q hq with h | h
      · exact hacc q h
      · rw [h]
        have hmem : (d.location, s) ∈ acc := studioLookup_some_mem acc d.location s hl
        exact hadd d.location s d (List.mem_cons_self _ _) (hacc _ hmem)

theorem studioData_entry_props (es : List ProcessedTeacherData)
    (p : String × ProcessedTeacherData) (hp : p ∈ studioData es) :
    p.2.location = p.1 ∧ p.2.teacherName = "All Teachers" ∧
    p.2.noShowRate = 0 ∧ p.2.lateCancellationRate = 0 ∧ p.2.firstTimeBuyerRate = 0 ∧
    p.2.influencerConversionRate = 0 ∧ p.2.referralConversionRate = 0 ∧
    p.2.trialToMembershipConversion = 0 := by
  refine studioFold_pred
    (fun q => q.2.location = q.1 ∧ q.2.teacherName = "All Teachers" ∧
      q.2.noShowRate = 0 ∧ q.2.lateCancellationRate = 0 ∧ q.2.firstTimeBuyerRate = 0 ∧
      q.2.influencerConversionRate = 0 ∧ q.2.referralConversionRate = 0 ∧
      q.2.trialToMembershipConversion = 0) es []
    (fun k v d _ hP => ?_) (fun d _ => ?_) (by simp) p hp
  · exact hP
  · exact ⟨rfl, rfl, rfl, rfl, rfl, rfl, rfl, rfl⟩

theorem studioEntries_facts (es : List ProcessedTeacherData) (s : ProcessedTeacherData)
    (hs : s ∈ studioEntries es) :
    countsOf s = sumLoc es s.location ∧
    s.teacherName = "All Teachers" ∧
    s.retentionRate = pct s.retainedClients s.newClients ∧
    s.conversionRate = pct s.convertedClients s.newClients ∧
    s.averageRevenuePerClient = safeDiv s.totalRevenue s.convertedClients ∧
    s.noShowRate = 0 ∧ s.lateCancellationRate = 0 ∧ s.firstTimeBuyerRate = 0 ∧
    s.influencerConversionRate = 0 ∧ s.referralConversionRate = 0 ∧
    s.trialToMembershipConversion = 0 := by
  obtain ⟨p, hp, heq⟩ := List.mem_map.mp hs
  obtain ⟨hloc, hteach, hr1, hr2, hr3, hr4, hr5, hr6⟩ := studioData_entry_props es p hp
  have hlk : studioLookup (studioData es) p.1 = some p.2 :=
    lookup_of_mem_nodup _ (studioFold_keys_nodup es [] (by simp)) p.1 p.2
      (by cases p; exact hp)
  have hcounts : countsOf p.2 = sumLoc es p.1 := by
    calc countsOf p.2 = countsAt (studioData es) p.1 := by unfold countsAt; rw [hlk]
      _ = countsAt [] p.1 + sumLoc es p.1 := countsAt_fold es [] p.1
      _ = sumLoc es p.1 := by
        rw [show countsAt [] p.1 = 0 from rfl, counts_zero_add]
  subst heq
  refine ⟨?_, hteach, rfl, rfl, rfl, hr1, hr2, hr3, hr4, hr5, hr6⟩
  rw [countsOf_finalize, show (finalizeStudio p.2).location = p.1 from hloc]
  exact hcounts

theorem mem_emittedCohorts (e : List NewRecord) (b : List BookingRecord)
    (s : List SaleRecord) (ts ls ps : List String) (d : ProcessedTeacherData)
    (hd : d ∈ emittedCohorts e b s ts ls ps) :
    ∃ t l p, d = cohortMetrics e b s t l p := by
  simp only [emittedCohorts, List.mem_flatMap, List.mem_filterMap] at hd
  obtain ⟨t, _, l, _, p, _, hcond⟩ := hd
  by_cases hz : ((teacherNewClients e t l p).length == 0) = true
  · rw [if_pos hz] at hcond
    exact absurd hcond (by simp)
  · rw [if_neg hz] at hcond
    exact ⟨t, l, p, (Option.some.inj hcond).symm⟩

theorem cohortMetrics_empty_sales (e : List NewRecord) (b : List BookingRecord)
    (t l p : String) :
    (cohortMetrics e b [] t l p).convertedClients = 0 ∧
    (cohortMetrics e b [] t l p).totalRevenue = 0 := ⟨rfl, rfl⟩

theorem studioEntries_zero_conv (es : List ProcessedTeacherData)
    (hes : ∀ d ∈ es, d.convertedClients = 0 ∧ d.totalRevenue = 0)
    (s : ProcessedTeacherData) (hs : s ∈ studioEntries es) :
    s.convertedClients = 0 ∧ s.totalRevenue = 0 := by
  obtain ⟨p, hp, heq⟩ := List.mem_map.mp hs
  have hP := studioFold_pred
    (fun q => q.2.convertedClients = 0 ∧ q.2.totalRevenue = 0) es []
    (fun k v d hd hPv => by
      obtain ⟨h1, h2⟩ := hPv
      constructor
      · show v.convertedClients + d.convertedClients = 0
        simp only at h1
        simp [h1, (hes d hd).1]
      · show v.totalRevenue + d.totalRevenue = 0
        simp only at h2
        simp [h2, (hes d hd).2])
    (fun d hd => by
      constructor
      · show (0 : Int) + d.convertedClients = 0
        simp [(hes d hd).1]
      · show (0 : Int) + d.totalRevenue = 0
        simp [(hes d hd).2])
    (by simp) p hp
  subst heq
  exact hP

/-! ### Claim C1 -/

/-- C1 (counterexample): two cohorts at one location in different months yield
a single rollup keyed by the location alone; for the pair
("Studio L", "January 2024") the rollup reports 2 new clients while the
per-staff cohorts of that location and period sum to 1. -/
theorem c1_rollup_cex :
    ((processData [c1new1, c1new2] [c1book1, c1book2] (some [])).2.map
        fun s => (s.location, s.period, s.newClients)) =
      [("Studio L", "January 2024", 2)] ∧
    (((processData [c1new1, c1new2] [c1book1, c1book2] (some [])).1.filter
        fun d => d.location == "Studio L" && d.period == "January 2024").map
        fun d => d.newClients) = [1] := by decide

/-- C1 (amended): each studio rollup is keyed by location alone and carries
the all-staff sentinel "All Teachers"; every one of its count fields equals the
arithmetic sum of the corresponding counts of all emitted per-staff cohorts at
that location, taken across all staff members and all periods. -/
theorem c1_rollup_sums (enriched : List NewRecord) (bookings : List BookingRecord)
    (sales : List SaleRecord) (teachers locations periods : List String) :
    ((studioEntries (emittedCohorts enriched bookings sales teachers locations periods)).all
      fun s =>
        decide (countsOf s =
          sumLoc (emittedCohorts enriched bookings sales teachers locations periods)
            s.location) && (s.teacherName == "All Teachers")) = true := by
  rw [List.all_eq_true]
  intro s hs
  obtain ⟨hc, ht, _⟩ := studioEntries_facts _ s hs
  simp [hc, ht]

/-! ### Claim C6 -/

/-- C6 (counterexample): a studio rollup accumulating one no-show keeps its
no-show rate at 0 although the formula of section 4.7 on the summed data gives
50 percent (1 no-show out of 2 attendance rows). -/
theorem c6_rates_cex :
    ((processData [c6new] [c6book1, c6book2] (some [])).2.map
        fun s => (s.noShows, s.noShowRate)) = [(1, 0)] ∧
    (teacherBookings [c6book1, c6book2] "T1" "Studio L" "January 2024").length = 2 ∧
    pct 1 2 = 50 := by
  refine ⟨by decide, by decide, ?_⟩
  norm_num [pct]

/-- C6 (amended): after summation only the retention rate, the conversion rate
and the average revenue per client of a rollup are recomputed from the summed
counts; its no-show, late-cancellation, first-time-buyer, influencer-,
referral- and trial-conversion rates are left at their initial 0, not
recomputed and not copied. -/
theorem c6_rollup_rates (enriched : List NewRecord) (bookings : List BookingRecord)
    (sales : List SaleRecord) (teachers locations periods : List String) :
    ((studioEntries (emittedCohorts enriched bookings sales teachers locations periods)).all
      fun s =>
        decide (s.retentionRate = pct s.retainedClients s.newClients) &&
        decide (s.conversionRate = pct s.convertedClients s.newClients) &&
        decide (s.averageRevenuePerClient = safeDiv s.totalRevenue s.convertedClients) &&
        decide (s.noShowRate = 0) && decide (s.lateCancellationRate = 0) &&
        decide (s.firstTimeBuyerRate = 0) && decide (s.influencerConversionRate = 0) &&
        decide (s.referralConversionRate = 0) &&
        decide (s.trialToMembershipConversion = 0)) = true := by
  rw [List.all_eq_true]
  intro s hs
  obtain ⟨_, _, h1, h2, h3, h4, h5, h6, h7, h8, h9⟩ := studioEntries_facts _ s hs
  simp [h1, h2, h3, h4, h5, h6, h7, h8, h9]

/-! ### Claim C8 -/

/-- C8: with an empty sales dataset the pipeline still produces its result,
and every emitted record, per-staff cohort and studio rollup alike, has a
converted-client count of 0 and a total revenue of 0. -/
theorem c8_empty_sales (newData : List NewRecord) (bookingsData : List BookingRecord) :
    (((processData newData bookingsData (some [])).1 ++
        (processData newData bookingsData (some [])).2).all
      fun d => (d.convertedClients == (0 : Int)) && (d.totalRevenue == (0 : Int))) = true := by
  rw [List.all_eq_true]
  intro d hd
  have hzero : d.convertedClients = 0 ∧ d.totalRevenue = 0 := by
    rcases List.mem_append.mp hd with h | h
    · obtain ⟨t, l, p, rfl⟩ :=
        mem_emittedCohorts (newData.map (enrichRecord bookingsData)) bookingsData []
          (derivedTeachers bookingsData)
          (derivedLocations (newData.map (enrichRecord bookingsData)))
          (derivedPeriods (newData.map (enrichRecord bookingsData))) d h
      exact cohortMetrics_empty_sales _ _ t l p
    · refine studioEntries_zero_conv
        (emittedCohorts (newData.map (enrichRecord bookingsData)) bookingsData []
          (derivedTeachers bookingsData)
          (derivedLocations (newData.map (enrichRecord bookingsData)))
          (derivedPeriods (newData.map (enrichRecord bookingsData)))) ?_ d h
      intro d2 hd2
      obtain ⟨t, l, p, rfl⟩ :=
        mem_emittedCohorts (newData.map (enrichRecord bookingsData)) bookingsData []
          (derivedTeachers bookingsData)
          (derivedLocations (newData.map (enrichRecord bookingsData)))
          (derivedPeriods (newData.map (enrichRecord bookingsData))) d2 hd2
      exact cohortMetrics_empty_sales _ _ t l p
  simp [hzero.1, hzero.2]

/-! ### Claim C9 -/

/-- C9: every guarded rate degrades to 0 when its denominator is zero, in the
per-staff cohorts and in the studio rollups alike.  For a cohort: the
new-client count guards the retention, conversion and first-time-buyer rates,
the attendance-row count the no-show and late-cancellation rates, the
respective channel member count the three channel conversion rates, and the
converted-client count the average revenue per client.  For a rollup: the
summed new-client count guards the recomputed retention and conversion rates
and the summed converted-client count the recomputed average revenue per
client, while the remaining six rollup rates are 0 outright, so in particular
0 whenever their denominator is zero; no rate computation divides
unguarded. -/
theorem c9_zero_denominators (enriched : List NewRecord) (bookings : List BookingRecord)
    (sales : List SaleRecord) (t l p : String) (teachers locations periods : List String) :
    ((studioEntries (emittedCohorts enriched bookings sales teachers locations periods)).all
      fun s =>
        (!(s.newClients == 0) ||
          (decide (s.retentionRate = 0) && decide (s.conversionRate = 0) &&
            decide (s.firstTimeBuyerRate = 0))) &&
        (!(s.convertedClients == 0) || decide (s.averageRevenuePerClient = 0)) &&
        (!(s.trials == 0) || decide (s.trialToMembershipConversion = 0)) &&
        (!(s.referrals == 0) || decide (s.referralConversionRate = 0)) &&
        (!(s.influencerSignups == 0) || decide (s.influencerConversionRate = 0)) &&
        decide (s.noShowRate = 0) && decide (s.lateCancellationRate = 0)) = true ∧
    ((cohortMetrics enriched bookings sales t l p).newClients = 0 →
      (cohortMetrics enriched bookings sales t l p).retentionRate = 0 ∧
      (cohortMetrics enriched bookings sales t l p).conversionRate = 0 ∧
      (cohortMetrics enriched bookings sales t l p).firstTimeBuyerRate = 0) ∧
    ((teacherBookings bookings t l p).length = 0 →
      (cohortMetrics enriched bookings sales t l p).noShowRate = 0 ∧
      (cohortMetrics enriched bookings sales t l p).lateCancellationRate = 0) ∧
    ((cohortMetrics enriched bookings sales t l p).trials = 0 →
      (cohortMetrics enriched bookings sales t l p).trialToMembershipConversion = 0) ∧
    ((cohortMetrics enriched bookings sales t l p).referrals = 0 →
      (cohortMetrics enriched bookings sales t l p).referralConversionRate = 0) ∧
    ((cohortMetrics enriched bookings sales t l p).influencerSignups = 0 →
      (cohortMetrics enriched bookings sales t l p).influencerConversionRate = 0) ∧
    ((cohortMetrics enriched bookings sales t l p).convertedClients = 0 →
      (cohortMetrics enriched bookings sales t l p).averageRevenuePerClient = 0) := by
  refine ⟨?_, fun h => ?_, fun h => ?_, fun h => ?_, fun h => ?_, fun h => ?_, fun h => ?_⟩
  · rw [List.all_eq_true]
    intro s hs
    obtain ⟨_, _, h1, h2, h3, h4, h5, h6, h7, h8, h9⟩ := studioEntries_facts _ s hs
    by_cases hn : s.newClients = 0 <;> by_cases hc : s.convertedClients = 0 <;>
      simp [h1, h2, h3, h4, h5, h6, h7, h8, h9, hn, hc, pct_den_zero, safeDiv_den_zero]
  · rw [cm_newClients] at h
    rw [cm_retentionRate, cm_conversionRate, cm_firstTimeBuyerRate, h]
    exact ⟨pct_den_zero _, pct_den_zero _, pct_den_zero _⟩
  · rw [cm_noShowRate, cm_lateCancellationRate, h]
    exact ⟨pct_den_zero _, pct_den_zero _⟩
  · rw [cm_trials] at h
    rw [cm_trialToMembershipConversion, h]
    exact pct_den_zero _
  · rw [cm_referrals] at h
    rw [cm_referralConversionRate, h]
    exact pct_den_zero _
  · rw [cm_influencerSignups] at h
    rw [cm_influencerConversionRate, h]
    exact pct_den_zero _
  · rw [cm_convertedClients] at h
    rw [cm_averageRevenuePerClient, h]
    exact safeDiv_den_zero _

/-- C9 (witness): at the empty inputs every denominator is zero and every
guarded rate evaluates to 0. -/
theorem c9_zero_denominators_witness :
    (cohortMetrics [] [] [] "T1" "Studio L" "January 2024").retentionRate = 0 ∧
    (cohortMetrics [] [] [] "T1" "Studio L" "January 2024").conversionRate = 0 ∧
    (cohortMetrics [] [] [] "T1" "Studio L" "January 2024").firstTimeBuyerRate = 0 ∧
    (cohortMetrics [] [] [] "T1" "Studio L" "January 2024").noShowRate = 0 ∧
    (cohortMetrics [] [] [] "T1" "Studio L" "January 2024").lateCancellationRate = 0 ∧
    (cohortMetrics [] [] [] "T1" "Studio L" "January 2024").trialToMembershipConversion = 0 ∧
    (cohortMetrics [] [] [] "T1" "Studio L" "January 2024").referralConversionRate = 0 ∧
    (cohortMetrics [] [] [] "T1" "Studio L" "January 2024").influencerConversionRate = 0 ∧
    (cohortMetrics [] [] [] "T1" "Studio L" "January 2024").averageRevenuePerClient = 0 := by
  obtain ⟨_, h1, h2, h3, h4, h5, h6⟩ :=
    c9_zero_denominators [] [] [] "T1" "Studio L" "January 2024" [] [] []
  obtain ⟨a1, a2, a3⟩ := h1 (by decide)
  obtain ⟨b1, b2⟩ := h2 (by decide)
  exact ⟨a1, a2, a3, b1, b2, h3 (by decide), h4 (by decide), h5 (by decide), h6 (by decide)⟩
